import Mathlib

/-!
Verification of the chart catalog and hardlink synchronization engine of
SRXD-charts-loader. The development shallowly embeds three parts of the
source:

* the search model of `src/chart_db/main.py` (`SearchCondition`,
  `generate_where_query`, `search_file_reference`, `get_latest_update_date`),
  together with an executable semantics of the generated SQLite WHERE clause;
* the hardlink mirror reconciler of `src/hardlink_proc.py`
  (`delete_untargeted_hardlinks`, `create_hardlink`), with the filesystem
  and `win32file.CreateHardLink` error codes modelled as explicit state;
* the incremental indexer `load_srtb_files_to_sqlite` of
  `src/chart_db/main.py`, with the sqlite table as an association list.

Machine timestamps are modelled as seconds (`Nat`); the code compares
timestamps formatted at second resolution, so equality of the formatted
strings coincides with equality of these values.
-/

/-! ## Chart records (schema of `create_srtb_table_if_not_exists`)

Columns declared NOT NULL in `connection.py` are `String`/`Int`; nullable
columns are `Option`-valued. -/

structure ChartRecord where
  file_reference : String
  track_title : String
  track_subtitle : Option String
  track_artist : String
  charter : String
  easy_difficulty : Option Int
  normal_difficulty : Option Int
  hard_difficulty : Option Int
  expert_difficulty : Option Int
  xd_difficulty : Option Int
  albumart_asset_name : String
  clip_asset_name : String
  self_path : String
  clip_duration : Option Int
  file_modified_at : Nat
  created_at : Nat
  deriving DecidableEq, Repr

/-! ## SearchCondition (dataclass in `src/chart_db/main.py`) -/

structure SearchCondition where
  title : Option (List String) := none
  artist : Option (List String) := none
  charter : Option (List String) := none
  min_diff_level : Option String := none
  max_diff_level : Option String := none
  min_duration : Option String := none
  max_duration : Option String := none
  exclude_artist : Option (List String) := none
  exclude_charter : Option (List String) := none
  deriving DecidableEq, Repr

/-- Python truthiness of the guard `if self.title and self.title[0] != "":`
used for the three positive multi-value fields. -/
def posFieldGuard : Option (List String) → Bool
  | some (v :: _) => v ≠ ""
  | _ => false

/-- Python truthiness of an optional string (`None` and `""` are falsy),
the guard used for the four bound fields. -/
def strTruthy : Option String → Bool
  | none => false
  | some s => s ≠ ""

/-- Python truthiness of an optional list (`None` and `[]` are falsy),
the guard used for the two exclude fields. -/
def listTruthy : Option (List String) → Bool
  | none => false
  | some l => !l.isEmpty

/-- One parenthesized group appended to `conditions` in
`SearchCondition.generate_where_query`; the payloads are the raw value
strings that the Python code interpolates into the SQL text. -/
inductive WhereGroup
  | orLikeTitle (vals : List String)
  | orLikeArtist (vals : List String)
  | orLikeCharter (vals : List String)
  | orMinDiff (bound : String)
  | orMaxDiff (bound : String)
  | minDur (bound : String)
  | maxDur (bound : String)
  | andNotLikeArtist (vals : List String)
  | andNotLikeCharter (vals : List String)
  deriving DecidableEq, Repr

/-- The exact SQL text each group contributes, reproducing the f-strings of
`generate_where_query` character for character (including the double space
in the charter LIKE fragment on line 57). -/
def renderGroup : WhereGroup → String
  | .orLikeTitle vals =>
      "(" ++ " OR ".intercalate (vals.map (fun v => "track_title LIKE '%" ++ v ++ "%'")) ++ ")"
  | .orLikeArtist vals =>
      "(" ++ " OR ".intercalate (vals.map (fun v => "track_artist LIKE '%" ++ v ++ "%'")) ++ ")"
  | .orLikeCharter vals =>
      "(" ++ " OR ".intercalate (vals.map (fun v => "charter LIKE  '%" ++ v ++ "%'")) ++ ")"
  | .orMinDiff b =>
      "(" ++ " OR ".intercalate
        [ "easy_difficulty >= " ++ b, "normal_difficulty >= " ++ b,
          "hard_difficulty >= " ++ b, "expert_difficulty >= " ++ b,
          "xd_difficulty >= " ++ b ] ++ ")"
  | .orMaxDiff b =>
      "(" ++ " OR ".intercalate
        [ "easy_difficulty <= " ++ b, "normal_difficulty <= " ++ b,
          "hard_difficulty <= " ++ b, "expert_difficulty <= " ++ b,
          "xd_difficulty <= " ++ b ] ++ ")"
  | .minDur b => "clip_duration >= " ++ b
  | .maxDur b => "clip_duration <= " ++ b
  | .andNotLikeArtist vals =>
      "(" ++ " AND ".intercalate (vals.map (fun v => "track_artist NOT LIKE '%" ++ v ++ "%'")) ++ ")"
  | .andNotLikeCharter vals =>
      "(" ++ " AND ".intercalate (vals.map (fun v => "charter NOT LIKE '%" ++ v ++ "%'")) ++ ")"

/-- The list `conditions` built by `generate_where_query`: one group per
taken `if` branch, in source order. -/
def SearchCondition.whereGroups (c : SearchCondition) : List WhereGroup :=
  (if posFieldGuard c.title then [WhereGroup.orLikeTitle (c.title.getD [])] else []) ++
  (if posFieldGuard c.artist then [WhereGroup.orLikeArtist (c.artist.getD [])] else []) ++
  (if posFieldGuard c.charter then [WhereGroup.orLikeCharter (c.charter.getD [])] else []) ++
  (if strTruthy c.min_diff_level then [WhereGroup.orMinDiff (c.min_diff_level.getD "")] else []) ++
  (if strTruthy c.max_diff_level then [WhereGroup.orMaxDiff (c.max_diff_level.getD "")] else []) ++
  (if strTruthy c.min_duration then [WhereGroup.minDur (c.min_duration.getD "")] else []) ++
  (if strTruthy c.max_duration then [WhereGroup.maxDur (c.max_duration.getD "")] else []) ++
  (if listTruthy c.exclude_artist then [WhereGroup.andNotLikeArtist (c.exclude_artist.getD [])] else []) ++
  (if listTruthy c.exclude_charter then [WhereGroup.andNotLikeCharter (c.exclude_charter.getD [])] else [])

/-- `SearchCondition.generate_where_query`: the groups joined with AND,
exactly the string `" AND ".join(conditions)` returned by the Python code. -/
def SearchCondition.generate_where_query (c : SearchCondition) : String :=
  " AND ".intercalate ((c.whereGroups).map renderGroup)

/-! ## Semantics of the generated WHERE clause

SQLite evaluates the clause in three-valued logic (`Option Bool`, `none`
standing for NULL) and a SELECT keeps exactly the rows on which the clause
is true. -/

/-- SQLite LIKE matching: percent matches any character sequence,
underscore matches one character, plain characters compare
ASCII-case-insensitively (SQLite's default for LIKE). -/
def likeMatch : List Char → List Char → Bool
  | [], s => s.isEmpty
  | '%' :: ps, s => (s.tails).any (fun t => likeMatch ps t)
  | _ :: _, [] => false
  | p :: ps, c :: s => (p = '_' || p.toLower = c.toLower) && likeMatch ps s

/-- The test `col LIKE '%v%'` on a non-NULL text column holding `s`. -/
def likeContains (v s : String) : Bool :=
  likeMatch ('%' :: (v.data ++ ['%'])) s.data

/-- The value of a decimal digit character. -/
def digitVal? (c : Char) : Option Nat :=
  if '0' ≤ c ∧ c ≤ '9' then some (c.toNat - '0'.toNat) else none

/-- Left-to-right decimal accumulation over the remaining characters. -/
def parseNatDigits : List Char → Nat → Option Nat
  | [], acc => some acc
  | c :: rest, acc =>
    match digitVal? c with
    | none => none
    | some d => parseNatDigits rest (acc * 10 + d)

/-- The integer denoted by the interpolated literal text, when it is a
signed decimal numeral as SQLite's tokenizer reads it. -/
def sqlIntLit? (s : String) : Option Int :=
  match s.data with
  | [] => none
  | '-' :: rest =>
    match rest with
    | [] => none
    | _ => (parseNatDigits rest 0).map (fun n => -(n : Int))
  | cs => (parseNatDigits cs 0).map (fun n => (n : Int))

/-- SQL comparison `col >= lit` for a nullable integer column against the
interpolated literal text: NULL operand gives NULL; a literal that is not
an integer numeral is modelled as NULL (the real engine rejects the whole
query then, so no row is selected in that case either). -/
def sqlGe (col : Option Int) (lit : String) : Option Bool :=
  match col with
  | none => none
  | some v =>
    match sqlIntLit? lit with
    | none => none
    | some n => some (decide (n ≤ v))

/-- SQL comparison `col <= lit`, as `sqlGe`. -/
def sqlLe (col : Option Int) (lit : String) : Option Bool :=
  match col with
  | none => none
  | some v =>
    match sqlIntLit? lit with
    | none => none
    | some n => some (decide (v ≤ n))

/-- Kleene disjunction of a list of nullable booleans: true if some operand
is true, false if all are false, otherwise NULL. -/
def kOr (l : List (Option Bool)) : Option Bool :=
  if l.any (fun x => x == some true) then some true
  else if l.all (fun x => x == some false) then some false
  else none

/-- Kleene conjunction of a list of nullable booleans. -/
def kAnd (l : List (Option Bool)) : Option Bool :=
  if l.any (fun x => x == some false) then some false
  else if l.all (fun x => x == some true) then some true
  else none

/-- Evaluation of one group of the WHERE clause on a row. The three text
columns are NOT NULL, so their LIKE tests never yield NULL; the difficulty
and duration columns are nullable. -/
def evalGroup (r : ChartRecord) : WhereGroup → Option Bool
  | .orLikeTitle vals => kOr (vals.map (fun v => some (likeContains v r.track_title)))
  | .orLikeArtist vals => kOr (vals.map (fun v => some (likeContains v r.track_artist)))
  | .orLikeCharter vals => kOr (vals.map (fun v => some (likeContains v r.charter)))
  | .orMinDiff b => kOr
      [ sqlGe r.easy_difficulty b, sqlGe r.normal_difficulty b, sqlGe r.hard_difficulty b,
        sqlGe r.expert_difficulty b, sqlGe r.xd_difficulty b ]
  | .orMaxDiff b => kOr
      [ sqlLe r.easy_difficulty b, sqlLe r.normal_difficulty b, sqlLe r.hard_difficulty b,
        sqlLe r.expert_difficulty b, sqlLe r.xd_difficulty b ]
  | .minDur b => sqlGe r.clip_duration b
  | .maxDur b => sqlLe r.clip_duration b
  | .andNotLikeArtist vals => kAnd (vals.map (fun v => some (!likeContains v r.track_artist)))
  | .andNotLikeCharter vals => kAnd (vals.map (fun v => some (!likeContains v r.charter)))

/-- A row satisfies the generated WHERE clause iff every ANDed group
evaluates to true (rows on which the clause is false or NULL are
discarded); with no groups there is no WHERE clause and every row
qualifies. -/
def rowMatches (c : SearchCondition) (r : ChartRecord) : Bool :=
  (c.whereGroups).all (fun g => evalGroup r g == some true)

/-- `search_file_reference`: SELECT file_reference, albumart_asset_name,
clip_asset_name FROM srtb WHERE (generated clause), over a table modelled
as the list of its rows. -/
def search_file_reference (store : List ChartRecord) (c : SearchCondition) :
    List (String × String × String) :=
  (store.filter (fun r => rowMatches c r)).map
    (fun r => (r.file_reference, r.albumart_asset_name, r.clip_asset_name))

/-- `get_latest_update_date`: SELECT datetime(MAX(created_at), '+9 hours')
FROM srtb. On an empty table MAX is NULL and the function hands back that
empty value (the aggregate always yields one row, so the `else ""` branch
of the Python code is unreachable); otherwise the maximum `created_at`
shifted by nine hours (32400 seconds). -/
def get_latest_update_date (store : List ChartRecord) : Option Nat :=
  match store with
  | [] => none
  | r :: rs => some ((rs.map (fun x => x.created_at)).foldl max r.created_at + 9 * 3600)

/-! ## Hardlink mirror reconciler (`src/hardlink_proc.py`)

The filesystem pieces the reconciler touches are modelled as explicit
state: the stems of the `*.srtb` files in the source chart directory and
in the mirror root, and the files (stem plus extension) of the AlbumArt
and AudioClips folders on each side. Whether the source and mirror roots
are on the same filesystem volume is a fixed property of the run.
`win32file.CreateHardLink` is modelled through its observed outcomes:
winerror 2 when the source file does not exist, winerror 183 when a file
already exists at the destination, winerror 17 when the two paths are on
different volumes, and otherwise success, which adds the destination
file. File names are modelled with a single extension dot, so a file's
`stem` is well defined. -/

structure FileName where
  stem : String
  ext : String
  deriving DecidableEq, Repr

structure World where
  sameVolume : Bool
  sourceCharts : List String
  sourceArts : List FileName
  sourceClips : List FileName
  mirrorCharts : List String
  mirrorArts : List FileName
  mirrorClips : List FileName
  deriving DecidableEq, Repr

/-- The `Result` dataclass of `hardlink_proc.py`. -/
structure Result where
  has_error : Bool := false
  error_message : String := ""
  success_creation_count : Nat := 0
  deriving DecidableEq, Repr

/-- The message assigned on the winerror 17 (cross-volume) branch. -/
def volumeErrorMessage : String :=
  "同じボリューム内でのみハードリンクが作成可能です。設定を見直してください"

/-- The three `pywintypes.error` codes `create_hardlink` handles. -/
inductive LinkErr
  | srcMissing
  | alreadyExists
  | crossVolume
  deriving DecidableEq, Repr

/-- Outcome of one `win32file.CreateHardLink(dst, src)` call. -/
def createHardLinkOutcome (srcPresent dstPresent sameVolume : Bool) : Option LinkErr :=
  if !srcPresent then some .srcMissing
  else if dstPresent then some .alreadyExists
  else if !sameVolume then some .crossVolume
  else none

/-- `delete_untargeted_hardlinks`: remove every mirror chart link whose stem
is not a targeted stem, every mirror album-art file whose stem is not a
targeted albumart asset name, and every mirror clip file whose stem is not
a targeted clip asset name. -/
def delete_untargeted_hardlinks (srtb_list : List (String × String × String))
    (w : World) : World :=
  { w with
    mirrorCharts := w.mirrorCharts.filter (fun s => (srtb_list.map (fun t => t.1)).contains s),
    mirrorArts := w.mirrorArts.filter (fun f => (srtb_list.map (fun t => t.2.1)).contains f.stem),
    mirrorClips := w.mirrorClips.filter (fun f => (srtb_list.map (fun t => t.2.2)).contains f.stem) }

/-- The glob `escape(asset_name) + ".*"` followed by taking the first
regular file: the first file of the folder whose stem is the asset name. -/
def findAsset (name : String) (files : List FileName) : Option FileName :=
  files.find? (fun f => f.stem == name)

/-- Album-art phase for one target: resolve the asset in the source
AlbumArt folder; if found, attempt the hard link into the mirror AlbumArt
folder, catching (and merely printing) every `pywintypes.error`; if not
found, log a warning. Only a successful link changes the state. -/
def linkAlbumArt (name : String) (w : World) : World :=
  match findAsset name w.sourceArts with
  | none => w
  | some f =>
    match createHardLinkOutcome true (w.mirrorArts.contains f) w.sameVolume with
    | none => { w with mirrorArts := w.mirrorArts ++ [f] }
    | some _ => w

/-- Audio-clip phase for one target: resolve the asset in the source
AudioClips folder; if found, attempt the hard link with NO exception
handler, so any link error escapes `create_hardlink` as an exception
(modelled as `none`); if not found, log a warning and continue. -/
def linkClip (name : String) (w : World) : Option World :=
  match findAsset name w.sourceClips with
  | none => some w
  | some f =>
    match createHardLinkOutcome true (w.mirrorClips.contains f) w.sameVolume with
    | none => some { w with mirrorClips := w.mirrorClips ++ [f] }
    | some _ => none

/-- What one loop iteration of `create_hardlink` does with its target:
`skip` is the winerror 2 `continue` (no count), `success w` finishes the
target with the counter incremented (either the winerror 183 `continue`,
which touches nothing else, or a created chart link followed by the two
asset phases), `abort` is the winerror 17 `break`, and `crash` is an
exception escaping the call. -/
inductive StepOut
  | skip
  | success (w : World)
  | abort
  | crash
  deriving DecidableEq, Repr

def processTarget (w : World) (t : String × String × String) : StepOut :=
  match createHardLinkOutcome (w.sourceCharts.contains t.1)
      (w.mirrorCharts.contains t.1) w.sameVolume with
  | some .srcMissing => .skip
  | some .alreadyExists => .success w
  | some .crossVolume => .abort
  | none =>
    match linkClip t.2.2
        (linkAlbumArt t.2.1 { w with mirrorCharts := w.mirrorCharts ++ [t.1] }) with
    | none => .crash
    | some w3 => .success w3

/-- The creation loop of `create_hardlink` over the remaining targets,
threading the filesystem state and the `Result` accumulator. -/
def createLoop (w : World) (ts : List (String × String × String)) (res : Result) :
    Option (World × Result) :=
  match ts with
  | [] => some (w, res)
  | t :: rest =>
    match processTarget w t with
    | .skip => createLoop w rest res
    | .success w' => createLoop w' rest
        { res with success_creation_count := res.success_creation_count + 1 }
    | .abort => some (w, { res with has_error := true, error_message := volumeErrorMessage })
    | .crash => none

/-- `create_hardlink`: prune the untargeted mirror links, then run the
creation loop from a fresh `Result`. A `none` value is the call raising
instead of returning. The progress callback and the `mkdir` calls touch
nothing the claims observe and are not modelled. -/
def create_hardlink (srtb_list : List (String × String × String)) (w : World) :
    Option (World × Result) :=
  createLoop (delete_untargeted_hardlinks srtb_list w) srtb_list {}

/-- The chart link of a target can be attempted: its source srtb exists. -/
def chartSrcPresent (w : World) (t : String × String × String) : Bool :=
  w.sourceCharts.contains t.1

/-- A chart link for the target already sits in the mirror root. -/
def chartDstPresent (w : World) (t : String × String × String) : Bool :=
  w.mirrorCharts.contains t.1

/-- On a cross-volume run, a target whose source exists and whose mirror
link is absent is the one that trips winerror 17. -/
def triggersAbort (w : World) (t : String × String × String) : Bool :=
  chartSrcPresent w t && !chartDstPresent w t

/-- On a cross-volume run, a target completes (and is counted) only via the
winerror 183 branch: source present and mirror link already present. -/
def completesOnCrossVolume (w : World) (t : String × String × String) : Bool :=
  chartSrcPresent w t && chartDstPresent w t

/-! ## Incremental indexer (`load_srtb_files_to_sqlite`)

The parser `srtb.load` is an external collaborator; a chart file carries
its parse outcome directly (`none` models `srtb.load` raising, which the
code logs and skips). `read_clip_metadata` enrichment is already reflected
in the parsed payload. The sqlite table is the list of its rows; the
`created_at` column is assigned by the database on write and is irrelevant
to the staleness logic, so it is omitted from the row model here. -/

/-- The parsed chart payload, with `get_difficulty_value` applied: a
difficulty stores its level when defined, else NULL. -/
structure SrtbChart where
  file_reference : String
  track_title : String
  track_subtitle : Option String
  track_artist : String
  charter : String
  easy_difficulty : Option Int
  normal_difficulty : Option Int
  hard_difficulty : Option Int
  expert_difficulty : Option Int
  xd_difficulty : Option Int
  albumart_asset_name : String
  clip_asset_name : String
  self_path : String
  clip_duration : Option Int
  deriving DecidableEq, Repr

/-- One `*.srtb` file of the source directory: its stem, its modification
time at second resolution, and what parsing it yields. -/
structure SrtbFile where
  stem : String
  mtime : Nat
  parsed : Option SrtbChart
  deriving DecidableEq, Repr

/-- One row of the srtb table as the indexer writes it. -/
structure DbRow where
  file_reference : String
  file_modified_at : Nat
  chart : SrtbChart
  deriving DecidableEq, Repr

abbrev Db := List DbRow

/-- SELECT file_modified_at FROM srtb WHERE file_reference = ? (the column
is the primary key, so the first matching row is the row). -/
def lookupModifiedAt (db : Db) (ref : String) : Option Nat :=
  (db.find? (fun row => row.file_reference == ref)).map (fun row => row.file_modified_at)

/-- INSERT OR REPLACE keyed on `file_reference`: drop any row with the same
key, then insert the new row. -/
def upsertRow (db : Db) (row : DbRow) : Db :=
  (db.filter (fun r => !(r.file_reference == row.file_reference))) ++ [row]

/-- The body of the indexing loop over the remaining files: skip a file
whose stored modification time equals the current one, skip a file whose
parse fails, otherwise upsert the parsed chart keyed by its
`file_reference` with `file_modified_at` set to the observed mtime and
fire the callback with (chart, index, total). Returns the final table, the
callback invocations in order, and the number of upserts executed. -/
def loadStep (total : Nat) : List SrtbFile → Nat → Db → Db × List (SrtbChart × Nat × Nat) × Nat
  | [], _, db => (db, [], 0)
  | f :: rest, idx, db =>
    if lookupModifiedAt db f.stem == some f.mtime then
      loadStep total rest (idx + 1) db
    else
      match f.parsed with
      | none => loadStep total rest (idx + 1) db
      | some chart =>
        let db2 := upsertRow db ⟨chart.file_reference, f.mtime, chart⟩
        let out := loadStep total rest (idx + 1) db2
        (out.1, (chart, idx, total) :: out.2.1, out.2.2 + 1)

/-- `load_srtb_files_to_sqlite` over the enumerated chart files. -/
def load_srtb_files_to_sqlite (files : List SrtbFile) (db : Db) :
    Db × List (SrtbChart × Nat × Nat) × Nat :=
  loadStep files.length files 0 db

/-! ## Sample data used by witnesses -/

/-- A stored chart whose hard tier is 7, whose other tiers are undefined,
and whose clip duration is NULL. -/
def sampleRecord : ChartRecord :=
  { file_reference := "chartA", track_title := "Alpha Song", track_subtitle := none,
    track_artist := "ArtistY", charter := "CharterZ",
    easy_difficulty := none, normal_difficulty := none, hard_difficulty := some 7,
    expert_difficulty := none, xd_difficulty := none,
    albumart_asset_name := "artA", clip_asset_name := "clipA",
    self_path := "C:/charts/chartA.srtb", clip_duration := none,
    file_modified_at := 100, created_at := 500 }

/-- A second stored chart, indexed later than `sampleRecord`. -/
def sampleRecordB : ChartRecord :=
  { sampleRecord with
    file_reference := "chartB", track_title := "Beta Song",
    created_at := 900 }

def sampleCondition : SearchCondition :=
  { title := some ["Al"], exclude_artist := some ["X"] }

def durationCondition : SearchCondition := { min_duration := some "30" }

/-! ## Theorems -/

/-- Kleene disjunction over a list of non-NULL operands is the boolean
disjunction. -/
theorem any_map_general {α β : Type} (g : α → β) (p : β → Bool) (l : List α) :
    (l.map g).any p = l.any (fun v => p (g v)) := by
  induction l with
  | nil => rfl
  | cons a t ih => simp [List.any_cons, ih]

theorem all_map_general {α β : Type} (g : α → β) (p : β → Bool) (l : List α) :
    (l.map g).all p = l.all (fun v => p (g v)) := by
  induction l with
  | nil => rfl
  | cons a t ih => simp [List.all_cons, ih]

theorem kOr_map_some {α : Type} (f : α → Bool) (l : List α) :
    kOr (l.map (fun v => some (f v))) = some (l.any f) := by
  unfold kOr
  have h1 : (l.map (fun v => some (f v))).any (fun x => x == some true) = l.any f := by
    rw [any_map_general]
    congr 1
    funext v
    cases f v <;> rfl
  have h2 : (l.map (fun v => some (f v))).all (fun x => x == some false) =
      l.all (fun v => !f v) := by
    rw [all_map_general]
    congr 1
    funext v
    cases f v <;> rfl
  rw [h1, h2]
  cases h : l.any f with
  | true => simp
  | false =>
    have hall : l.all (fun v => !f v) = true := by
      rw [List.all_eq_true]
      intro v hv
      cases hb : f v
      · rfl
      · exact absurd (List.any_eq_true.mpr ⟨v, hv, hb⟩) (by simp [h])
    simp [hall]

/-- Kleene conjunction over a list of non-NULL operands is the boolean
conjunction. -/
theorem kAnd_map_some {α : Type} (f : α → Bool) (l : List α) :
    kAnd (l.map (fun v => some (f v))) = some (l.all f) := by
  unfold kAnd
  have h1 : (l.map (fun v => some (f v))).any (fun x => x == some false) =
      l.any (fun v => !f v) := by
    rw [any_map_general]
    congr 1
    funext v
    cases f v <;> rfl
  have h2 : (l.map (fun v => some (f v))).all (fun x => x == some true) = l.all f := by
    rw [all_map_general]
    congr 1
    funext v
    cases f v <;> rfl
  rw [h1, h2]
  cases h : l.all f with
  | true =>
    have hno : l.any (fun v => !f v) = false := by
      rw [List.any_eq_false]
      intro v hv
      simp [List.all_eq_true.mp h v hv]
    simp [hno]
  | false =>
    have hany : l.any (fun v => !f v) = true := by
      rcases List.all_eq_false.mp h with ⟨v, hv, hfv⟩
      exact List.any_eq_true.mpr ⟨v, hv, by simp only [Bool.not_eq_true] at hfv; simp [hfv]⟩
    simp [hany]

/-- Kleene disjunction is true exactly when some operand is true. -/
theorem kOr_eq_some_true (l : List (Option Bool)) :
    kOr l = some true ↔ ∃ x ∈ l, x = some true := by
  unfold kOr
  cases h : l.any (fun x => x == some true) with
  | true =>
    rw [if_pos rfl]
    rcases List.any_eq_true.mp h with ⟨x, hx, hbeq⟩
    exact iff_of_true rfl ⟨x, hx, by simpa using hbeq⟩
  | false =>
    rw [if_neg (by simp)]
    constructor
    · intro hcontra
      split at hcontra <;> simp_all
    · rintro ⟨x, hx, rfl⟩
      have h2 : l.any (fun x => x == some true) = true :=
        List.any_eq_true.mpr ⟨some true, hx, by simp⟩
      rw [h] at h2
      cases h2
theorem generate_where_query_sample :
    SearchCondition.generate_where_query
      { title := some ["Alpha", "Beta"], min_diff_level := some "5",
        exclude_artist := some ["X"] } =
      "(track_title LIKE '%Alpha%' OR track_title LIKE '%Beta%') AND (easy_difficulty >= 5 OR normal_difficulty >= 5 OR hard_difficulty >= 5 OR expert_difficulty >= 5 OR xd_difficulty >= 5) AND (track_artist NOT LIKE '%X%')" := by
  rfl

/-- A five-way Kleene disjunction is true exactly when one disjunct is. -/
theorem kOr_five_eq_some_true (a1 a2 a3 a4 a5 : Option Bool) :
    kOr [a1, a2, a3, a4, a5] = some true ↔
      (a1 = some true ∨ a2 = some true ∨ a3 = some true ∨ a4 = some true ∨ a5 = some true) := by
  rw [kOr_eq_some_true]
  constructor
  · rintro ⟨x, hx, rfl⟩
    simp only [List.mem_cons, List.not_mem_nil, or_false] at hx
    rcases hx with rfl | rfl | rfl | rfl | rfl <;> simp
  · intro h
    rcases h with h | h | h | h | h
    · exact ⟨a1, by simp, h⟩
    · exact ⟨a2, by simp, h⟩
    · exact ⟨a3, by simp, h⟩
    · exact ⟨a4, by simp, h⟩
    · exact ⟨a5, by simp, h⟩

/-- `col >= lit` is true exactly on a non-NULL value meeting the bound. -/
theorem sqlGe_eq_some_true (col : Option Int) (b : String) (n : Int)
    (hn : sqlIntLit? b = some n) :
    (sqlGe col b = some true) ↔ ∃ v, col = some v ∧ n ≤ v := by
  cases col with
  | none => simp [sqlGe]
  | some v => simp [sqlGe, hn]

/-- Claim C7, counterexample: value strings are pasted into the query text,
so a crafted single title value yields literally the same executed WHERE
clause as a structurally different two-value condition; the quote and
percent characters of the value inject an additional OR disjunct. The
claim that no value string can alter the structure of the executed query
is therefore false. -/
theorem where_query_injection_counterexample :
    SearchCondition.generate_where_query { title := some ["x%' OR track_title LIKE '%"] } =
      "(track_title LIKE '%x%' OR track_title LIKE '%%')" ∧
    SearchCondition.generate_where_query { title := some ["x", ""] } =
      "(track_title LIKE '%x%' OR track_title LIKE '%%')" :=
  ⟨by rfl, by rfl⟩

/-- Claim C7, amended: `generate_where_query` interpolates each condition
value verbatim into the query text, with no quoting or escaping, so values
are not kept as data and a value can alter the structure of the executed
query. -/
theorem where_query_interpolates_value_text (v : String) (hv : v ≠ "") :
    SearchCondition.generate_where_query { title := some [v] } =
      "(track_title LIKE '%" ++ v ++ "%')" := by
  have hg : posFieldGuard (some [v]) = true := by
    simp [posFieldGuard, hv]
  unfold SearchCondition.generate_where_query SearchCondition.whereGroups
  rw [hg]
  show "(" ++ ("track_title LIKE '%" ++ v ++ "%'") ++ ")" =
      "(track_title LIKE '%" ++ v ++ "%')"
  rw [show ("(track_title LIKE '%" : String) = "(" ++ "track_title LIKE '%" from rfl]
  rw [show ("%')" : String) = "%'" ++ ")" from rfl]
  simp only [String.append_assoc]

/-- Witness for the amended C7 at a concrete value. -/
theorem where_query_interpolates_value_text_witness :
    SearchCondition.generate_where_query { title := some ["abc"] } =
      "(track_title LIKE '%" ++ "abc" ++ "%')" :=
  where_query_interpolates_value_text "abc" (by decide)

/-- Claim C5: restricted to the multi-value fields (no difficulty or
duration bounds), a row matches the generated query exactly when, for each
taken positive field, the column contains at least one of the values (OR
across values), and, for each taken exclude field, the column contains
none of the values (AND of negations across values); the groups combine
conjunctively. -/
theorem where_query_or_and_asymmetry (c : SearchCondition) (r : ChartRecord)
    (h1 : c.min_diff_level = none) (h2 : c.max_diff_level = none)
    (h3 : c.min_duration = none) (h4 : c.max_duration = none) :
    rowMatches c r =
      ((!posFieldGuard c.title || (c.title.getD []).any (fun v => likeContains v r.track_title)) &&
       (!posFieldGuard c.artist || (c.artist.getD []).any (fun v => likeContains v r.track_artist)) &&
       (!posFieldGuard c.charter || (c.charter.getD []).any (fun v => likeContains v r.charter)) &&
       (!listTruthy c.exclude_artist ||
         (c.exclude_artist.getD []).all (fun v => !likeContains v r.track_artist)) &&
       (!listTruthy c.exclude_charter ||
         (c.exclude_charter.getD []).all (fun v => !likeContains v r.charter))) := by
  unfold rowMatches SearchCondition.whereGroups
  rw [h1, h2, h3, h4]
  cases hT : posFieldGuard c.title <;>
  cases hA : posFieldGuard c.artist <;>
  cases hC : posFieldGuard c.charter <;>
  cases hEA : listTruthy c.exclude_artist <;>
  cases hEC : listTruthy c.exclude_charter <;>
  simp [evalGroup, kOr_map_some, kAnd_map_some, strTruthy, Bool.and_assoc]

/-- Witness for C5 on a sample condition and record. -/
theorem where_query_or_and_asymmetry_witness :
    rowMatches sampleCondition sampleRecord = true := by
  rw [where_query_or_and_asymmetry sampleCondition sampleRecord rfl rfl rfl rfl]
  decide

/-- Claim C6: whenever `min_diff_level` is set (truthy) and numeric, the
generated query carries the five-way difficulty group, and a row satisfies
that group exactly when at least one of the five tiers holds a defined
level meeting the bound, undefined (NULL) tiers notwithstanding. -/
theorem min_diff_or_across_tiers (c : SearchCondition) (r : ChartRecord)
    (b : String) (n : Int) (hb : c.min_diff_level = some b) (hb2 : b ≠ "")
    (hn : sqlIntLit? b = some n) :
    WhereGroup.orMinDiff b ∈ c.whereGroups ∧
      (evalGroup r (WhereGroup.orMinDiff b) = some true ↔
        ((∃ v, r.easy_difficulty = some v ∧ n ≤ v) ∨
         (∃ v, r.normal_difficulty = some v ∧ n ≤ v) ∨
         (∃ v, r.hard_difficulty = some v ∧ n ≤ v) ∨
         (∃ v, r.expert_difficulty = some v ∧ n ≤ v) ∨
         (∃ v, r.xd_difficulty = some v ∧ n ≤ v))) := by
  constructor
  · unfold SearchCondition.whereGroups
    rw [hb]
    have hs : strTruthy (some b) = true := by simp [strTruthy, hb2]
    simp [hs]
  · show kOr [sqlGe r.easy_difficulty b, sqlGe r.normal_difficulty b, sqlGe r.hard_difficulty b,
        sqlGe r.expert_difficulty b, sqlGe r.xd_difficulty b] = some true ↔ _
    rw [kOr_five_eq_some_true, sqlGe_eq_some_true r.easy_difficulty b n hn,
        sqlGe_eq_some_true r.normal_difficulty b n hn,
        sqlGe_eq_some_true r.hard_difficulty b n hn,
        sqlGe_eq_some_true r.expert_difficulty b n hn,
        sqlGe_eq_some_true r.xd_difficulty b n hn]

def minDiffCondition : SearchCondition := { min_diff_level := some "5" }

/-- Witness for C6: the record with hard tier 7 and NULL expert tier
satisfies the difficulty group of `min_diff_level = "5"`. -/
theorem min_diff_or_across_tiers_witness :
    evalGroup sampleRecord (WhereGroup.orMinDiff "5") = some true :=
  (min_diff_or_across_tiers minDiffCondition sampleRecord "5" 5 rfl (by decide) (by decide)).2.mpr
    (Or.inr (Or.inr (Or.inl ⟨7, rfl, by norm_num⟩)))

/-- Claim C10: a record with NULL `clip_duration` never satisfies a
condition that sets a duration bound: the bound's comparison evaluates to
NULL, the conjunction is never true, so the record is not among the rows
`search_file_reference` selects, whatever the bound's text. -/
theorem null_duration_excluded (c : SearchCondition) (r : ChartRecord)
    (hr : r.clip_duration = none)
    (hc : strTruthy c.min_duration = true ∨ strTruthy c.max_duration = true) :
    rowMatches c r = false ∧
      (∀ store : List ChartRecord, r ∉ store.filter (fun x => rowMatches c x)) ∧
      search_file_reference [r] c = [] := by
  have hmain : rowMatches c r = false := by
    rw [Bool.eq_false_iff]
    intro hall
    unfold rowMatches at hall
    rw [List.all_eq_true] at hall
    rcases hc with h | h
    · have hmem : WhereGroup.minDur (c.min_duration.getD "") ∈ c.whereGroups := by
        unfold SearchCondition.whereGroups
        simp [h]
      have hval := hall _ hmem
      simp [evalGroup, hr, sqlGe] at hval
    · have hmem : WhereGroup.maxDur (c.max_duration.getD "") ∈ c.whereGroups := by
        unfold SearchCondition.whereGroups
        simp [h]
      have hval := hall _ hmem
      simp [evalGroup, hr, sqlLe] at hval
  refine ⟨hmain, ?_, ?_⟩
  · intro store hmem2
    have hx := (List.mem_filter.mp hmem2).2
    rw [hmain] at hx
    cases hx
  · unfold search_file_reference
    simp [List.filter_cons, hmain]

/-- Witness for C10 at a concrete condition and the NULL-duration record. -/
theorem null_duration_excluded_witness :
    rowMatches durationCondition sampleRecord = false ∧
      search_file_reference [sampleRecord] durationCondition = [] :=
  ⟨(null_duration_excluded durationCondition sampleRecord rfl (Or.inl (by decide))).1,
   (null_duration_excluded durationCondition sampleRecord rfl (Or.inl (by decide))).2.2⟩

/-- A left fold of `max` yields an element of the list (or the seed) that
bounds the seed and every element. -/
theorem foldl_max_spec (l : List Nat) (a : Nat) :
    (l.foldl max a = a ∨ l.foldl max a ∈ l) ∧ a ≤ l.foldl max a ∧
      ∀ x ∈ l, x ≤ l.foldl max a := by
  induction l generalizing a with
  | nil => simp
  | cons b t ih =>
    have h := ih (max a b)
    simp only [List.foldl_cons]
    refine ⟨?_, ?_, ?_⟩
    · rcases h.1 with h1 | h1
      · rcases Nat.le_total a b with hab | hab
        · right
          rw [h1, Nat.max_eq_right hab]
          exact List.mem_cons_self b t
        · left
          rw [h1, Nat.max_eq_left hab]
      · right
        exact List.mem_cons_of_mem b h1
    · exact Nat.le_trans (Nat.le_max_left a b) h.2.1
    · intro x hx
      rcases List.mem_cons.mp hx with rfl | hx2
      · exact Nat.le_trans (Nat.le_max_right a _) h.2.1
      · exact h.2.2 x hx2

/-- Claim C8: on an empty store `get_latest_update_date` yields the empty
value; on a non-empty store it yields the maximum `created_at` shifted by
the fixed nine-hour reporting offset (stated through any maximal record). -/
theorem latest_update_date_spec (store : List ChartRecord) :
    (store = [] → get_latest_update_date store = none) ∧
    (∀ r0 ∈ store, (∀ r ∈ store, r.created_at ≤ r0.created_at) →
      get_latest_update_date store = some (r0.created_at + 9 * 3600)) := by
  cases store with
  | nil =>
    refine ⟨fun _ => rfl, ?_⟩
    intro r0 h0
    exact absurd h0 (List.not_mem_nil r0)
  | cons r rs =>
    refine ⟨fun h => (List.cons_ne_nil r rs h).elim, ?_⟩
    intro r0 h0 hmax
    have h := foldl_max_spec (rs.map (fun x => x.created_at)) r.created_at
    have hM : (rs.map (fun x => x.created_at)).foldl max r.created_at = r0.created_at := by
      apply Nat.le_antisymm
      · rcases h.1 with h1 | h1
        · rw [h1]
          exact hmax r (List.mem_cons_self r rs)
        · rcases List.mem_map.mp h1 with ⟨r2, hr2, hval⟩
          rw [← hval]
          exact hmax r2 (List.mem_cons_of_mem r hr2)
      · rcases List.mem_cons.mp h0 with rfl | h02
        · exact h.2.1
        · exact h.2.2 _ (List.mem_map_of_mem _ h02)
    show some ((rs.map (fun x => x.created_at)).foldl max r.created_at + 9 * 3600) =
      some (r0.created_at + 9 * 3600)
    rw [hM]

/-- Witness for C8 on a concrete two-record store. -/
theorem latest_update_date_spec_witness :
    get_latest_update_date [sampleRecord, sampleRecordB] =
      some (sampleRecordB.created_at + 9 * 3600) :=
  (latest_update_date_spec [sampleRecord, sampleRecordB]).2 sampleRecordB
    (by simp) (by decide)

/-- Pruning only filters the three mirror folders. -/
theorem prune_sameVolume (ts : List (String × String × String)) (w : World) :
    (delete_untargeted_hardlinks ts w).sameVolume = w.sameVolume := rfl

theorem prune_sourceCharts (ts : List (String × String × String)) (w : World) :
    (delete_untargeted_hardlinks ts w).sourceCharts = w.sourceCharts := rfl

/-- The album-art phase never changes the volume property. -/
theorem linkAlbumArt_sameVolume (n : String) (w : World) :
    (linkAlbumArt n w).sameVolume = w.sameVolume := by
  unfold linkAlbumArt
  rcases h : findAsset n w.sourceArts with _ | f
  · simp only [h]
  · simp only [h]
    rcases h2 : createHardLinkOutcome true (w.mirrorArts.contains f) w.sameVolume with _ | e <;>
      rfl

/-- The album-art phase never changes the mirror chart links. -/
theorem linkAlbumArt_mirrorCharts (n : String) (w : World) :
    (linkAlbumArt n w).mirrorCharts = w.mirrorCharts := by
  unfold linkAlbumArt
  rcases h : findAsset n w.sourceArts with _ | f
  · simp only [h]
  · simp only [h]
    rcases h2 : createHardLinkOutcome true (w.mirrorArts.contains f) w.sameVolume with _ | e <;>
      rfl

/-- A clip phase that returns normally preserves the volume property and
the mirror chart links. -/
theorem linkClip_some (n : String) (w w2 : World) (h : linkClip n w = some w2) :
    w2.sameVolume = w.sameVolume ∧ w2.mirrorCharts = w.mirrorCharts := by
  unfold linkClip at h
  rcases hf : findAsset n w.sourceClips with _ | f
  · simp only [hf] at h
    cases h
    exact ⟨rfl, rfl⟩
  · simp only [hf] at h
    rcases ho : createHardLinkOutcome true (w.mirrorClips.contains f) w.sameVolume with _ | e
    · simp only [ho] at h
      cases h
      exact ⟨rfl, rfl⟩
    · simp only [ho] at h
      cases h

/-- A successfully processed target keeps the volume property. -/
theorem processTarget_success_sameVolume (w : World) (t : String × String × String)
    (w3 : World) (h : processTarget w t = .success w3) : w3.sameVolume = w.sameVolume := by
  unfold processTarget at h
  rcases ho : createHardLinkOutcome (w.sourceCharts.contains t.1)
      (w.mirrorCharts.contains t.1) w.sameVolume with _ | e
  · simp only [ho] at h
    rcases hc : linkClip t.2.2
        (linkAlbumArt t.2.1 { w with mirrorCharts := w.mirrorCharts ++ [t.1] }) with _ | w4
    · simp only [hc] at h
      cases h
    · simp only [hc] at h
      cases h
      rw [(linkClip_some _ _ _ hc).1, linkAlbumArt_sameVolume]
  · cases e
    · simp only [ho] at h
      cases h
    · simp only [ho] at h
      cases h
      rfl
    · simp only [ho] at h
      cases h

/-- With both roots on one volume, winerror 17 cannot arise. -/
theorem createHardLinkOutcome_not_cross (s d : Bool) :
    createHardLinkOutcome s d true ≠ some .crossVolume := by
  cases s <;> cases d <;> simp [createHardLinkOutcome]

/-- With both roots on one volume, no target aborts the loop. -/
theorem processTarget_no_abort (w : World) (t : String × String × String)
    (hvol : w.sameVolume = true) : processTarget w t ≠ .abort := by
  unfold processTarget
  rcases ho : createHardLinkOutcome (w.sourceCharts.contains t.1)
      (w.mirrorCharts.contains t.1) w.sameVolume with _ | e
  · simp only [ho]
    rcases hc : linkClip t.2.2
        (linkAlbumArt t.2.1 { w with mirrorCharts := w.mirrorCharts ++ [t.1] }) with _ | w4 <;>
      simp [hc]
  · cases e
    · simp [ho]
    · simp [ho]
    · rw [hvol] at ho
      exact absurd ho (createHardLinkOutcome_not_cross _ _)

/-- On a cross-volume run each target is decided by the source and mirror
presence of its chart link alone. -/
theorem processTarget_crossVolume (w : World) (t : String × String × String)
    (hvol : w.sameVolume = false) :
    processTarget w t = (if chartSrcPresent w t then
        (if chartDstPresent w t then StepOut.success w else StepOut.abort)
      else StepOut.skip) := by
  unfold processTarget createHardLinkOutcome chartSrcPresent chartDstPresent
  rw [hvol]
  cases w.sourceCharts.contains t.1 <;> cases w.mirrorCharts.contains t.1 <;> simp

/-- Along any normal return of the creation loop, the error flag and the
message move together: they keep their initial values unless the
cross-volume break set both. -/
theorem createLoop_error_fields (ts : List (String × String × String)) :
    ∀ w res0 w2 res, createLoop w ts res0 = some (w2, res) →
      res0.has_error = false → res0.error_message = "" →
      (res.has_error = true ∧ res.error_message = volumeErrorMessage) ∨
      (res.has_error = false ∧ res.error_message = "") := by
  induction ts with
  | nil =>
    intro w res0 w2 res h h1 h2
    simp only [createLoop, Option.some.injEq, Prod.mk.injEq] at h
    right
    rw [← h.2]
    exact ⟨h1, h2⟩
  | cons t rest ih =>
    intro w res0 w2 res h h1 h2
    simp only [createLoop] at h
    rcases hstep : processTarget w t with _ | w3 | _ | _
    · simp only [hstep] at h
      exact ih w res0 w2 res h h1 h2
    · simp only [hstep] at h
      exact ih w3 _ w2 res h h1 h2
    · simp only [hstep] at h
      simp only [Option.some.injEq, Prod.mk.injEq] at h
      left
      rw [← h.2]
      exact ⟨rfl, rfl⟩
    · simp only [hstep] at h
      cases h

/-- The loop counts each remaining target at most once. -/
theorem createLoop_count_le (ts : List (String × String × String)) :
    ∀ w res0 w2 res, createLoop w ts res0 = some (w2, res) →
      res.success_creation_count ≤ res0.success_creation_count + ts.length := by
  induction ts with
  | nil =>
    intro w res0 w2 res h
    simp only [createLoop, Option.some.injEq, Prod.mk.injEq] at h
    rw [← h.2]
    simp
  | cons t rest ih =>
    intro w res0 w2 res h
    simp only [createLoop] at h
    rcases hstep : processTarget w t with _ | w3 | _ | _
    · simp only [hstep] at h
      have hle := ih w res0 w2 res h
      simp only [List.length_cons]
      omega
    · simp only [hstep] at h
      have hle := ih w3 _ w2 res h
      simp only [List.length_cons]
      simp only [Result.mk.injEq] at hle
      omega
    · simp only [hstep] at h
      simp only [Option.some.injEq, Prod.mk.injEq] at h
      rw [← h.2]
      simp only [List.length_cons]
      omega
    · simp only [hstep] at h
      cases h

/-- On a same-volume run the loop never touches the error fields. -/
theorem createLoop_sameVolume_error (ts : List (String × String × String)) :
    ∀ w res0 w2 res, w.sameVolume = true → createLoop w ts res0 = some (w2, res) →
      res.has_error = res0.has_error ∧ res.error_message = res0.error_message := by
  induction ts with
  | nil =>
    intro w res0 w2 res hvol h
    simp only [createLoop, Option.some.injEq, Prod.mk.injEq] at h
    rw [← h.2]
    exact ⟨rfl, rfl⟩
  | cons t rest ih =>
    intro w res0 w2 res hvol h
    simp only [createLoop] at h
    rcases hstep : processTarget w t with _ | w3 | _ | _
    · simp only [hstep] at h
      exact ih w res0 w2 res hvol h
    · simp only [hstep] at h
      have hv3 : w3.sameVolume = true := by
        rw [processTarget_success_sameVolume w t w3 hstep, hvol]
      exact ih w3 { res0 with success_creation_count := res0.success_creation_count + 1 }
        w2 res hv3 h
    · exact absurd hstep (processTarget_no_abort w t hvol)
    · simp only [hstep] at h
      cases h

/-- Step outcome: missing source chart means a skip (winerror 2). -/
theorem processTarget_cv_skip (w : World) (t : String × String × String)
    (hvol : w.sameVolume = false) (hsrc : chartSrcPresent w t = false) :
    processTarget w t = .skip := by
  rw [processTarget_crossVolume w t hvol]
  simp [hsrc]

/-- Step outcome on a cross-volume run: an already-present mirror link is
counted via winerror 183 and nothing changes. -/
theorem processTarget_cv_success (w : World) (t : String × String × String)
    (hvol : w.sameVolume = false) (hsrc : chartSrcPresent w t = true)
    (hdst : chartDstPresent w t = true) :
    processTarget w t = .success w := by
  rw [processTarget_crossVolume w t hvol]
  simp [hsrc, hdst]

/-- Step outcome on a cross-volume run: an actual creation attempt hits
winerror 17 and aborts. -/
theorem processTarget_cv_abort (w : World) (t : String × String × String)
    (hvol : w.sameVolume = false) (hsrc : chartSrcPresent w t = true)
    (hdst : chartDstPresent w t = false) :
    processTarget w t = .abort := by
  rw [processTarget_crossVolume w t hvol]
  simp [hsrc, hdst]

/-- Step outcome on any run: source chart present and mirror link already
present give the winerror 183 branch, which counts the target and moves on
without touching the filesystem or the target's assets. -/
theorem processTarget_already (w : World) (t : String × String × String)
    (hsrc : chartSrcPresent w t = true) (hdst : chartDstPresent w t = true) :
    processTarget w t = .success w := by
  unfold processTarget createHardLinkOutcome
  unfold chartSrcPresent at hsrc
  unfold chartDstPresent at hdst
  rw [hsrc, hdst]
  rfl

/-- Step outcome: chart link creation proceeds (source present, mirror link
absent, same volume), followed by the two asset phases. -/
theorem processTarget_create (w : World) (t : String × String × String)
    (hvol : w.sameVolume = true) (hsrc : chartSrcPresent w t = true)
    (hdst : chartDstPresent w t = false) :
    processTarget w t = (match linkClip t.2.2
        (linkAlbumArt t.2.1 { w with mirrorCharts := w.mirrorCharts ++ [t.1] }) with
      | none => StepOut.crash
      | some w3 => StepOut.success w3) := by
  unfold processTarget createHardLinkOutcome
  unfold chartSrcPresent at hsrc
  unfold chartDstPresent at hdst
  rw [hsrc, hdst, hvol]
  rfl

/-- On a cross-volume run the creation loop leaves the filesystem untouched
and either scans every target without finding a creation attempt, or stops
at the first target whose source chart exists while its mirror link is
absent; the counter counts exactly the already-linked targets seen before
that point. -/
theorem createLoop_crossVolume (ts : List (String × String × String)) :
    ∀ w res0 w2 res, w.sameVolume = false → createLoop w ts res0 = some (w2, res) →
      w2 = w ∧
      ((res.has_error = res0.has_error ∧ res.error_message = res0.error_message ∧
        res.success_creation_count =
          res0.success_creation_count + (ts.filter (completesOnCrossVolume w)).length ∧
        ∀ t2 ∈ ts, triggersAbort w t2 = false) ∨
       (res.has_error = true ∧ res.error_message = volumeErrorMessage ∧
        ∃ pre t post, ts = pre ++ t :: post ∧ triggersAbort w t = true ∧
          (∀ t2 ∈ pre, triggersAbort w t2 = false) ∧
          res.success_creation_count =
            res0.success_creation_count + (pre.filter (completesOnCrossVolume w)).length)) := by
  induction ts with
  | nil =>
    intro w res0 w2 res hvol h
    simp only [createLoop, Option.some.injEq, Prod.mk.injEq] at h
    refine ⟨h.1.symm, Or.inl ?_⟩
    rw [← h.2]
    simp
  | cons t rest ih =>
    intro w res0 w2 res hvol h
    cases hsrc : chartSrcPresent w t with
    | false =>
      simp only [createLoop, processTarget_cv_skip w t hvol hsrc] at h
      rcases ih w res0 w2 res hvol h with ⟨hw2, hcase⟩
      have hcomp : completesOnCrossVolume w t = false := by
        simp [completesOnCrossVolume, hsrc]
      have htrig : triggersAbort w t = false := by
        simp [triggersAbort, hsrc]
      refine ⟨hw2, ?_⟩
      rcases hcase with ⟨e1, e2, e3, e4⟩ | ⟨e1, e2, pre, t3, post, hsplit, h5, h6, h7⟩
      · left
        refine ⟨e1, e2, ?_, ?_⟩
        · rw [List.filter_cons, if_neg (by simp [hcomp])]
          exact e3
        · intro t2 ht2
          rcases List.mem_cons.mp ht2 with h9 | h9
          · rw [h9]
            exact htrig
          · exact e4 t2 h9
      · right
        refine ⟨e1, e2, t :: pre, t3, post, by rw [hsplit, List.cons_append], h5, ?_, ?_⟩
        · intro t2 ht2
          rcases List.mem_cons.mp ht2 with h9 | h9
          · rw [h9]
            exact htrig
          · exact h6 t2 h9
        · rw [List.filter_cons, if_neg (by simp [hcomp])]
          exact h7
    | true =>
      cases hdst : chartDstPresent w t with
      | true =>
        simp only [createLoop, processTarget_cv_success w t hvol hsrc hdst] at h
        rcases ih w { res0 with success_creation_count := res0.success_creation_count + 1 }
            w2 res hvol h with ⟨hw2, hcase⟩
        have hcomp : completesOnCrossVolume w t = true := by
          simp [completesOnCrossVolume, hsrc, hdst]
        have htrig : triggersAbort w t = false := by
          simp [triggersAbort, hsrc, hdst]
        refine ⟨hw2, ?_⟩
        rcases hcase with ⟨e1, e2, e3, e4⟩ | ⟨e1, e2, pre, t3, post, hsplit, h5, h6, h7⟩
        · left
          have e1x : res.has_error = res0.has_error := e1
          have e2x : res.error_message = res0.error_message := e2
          have e3x : res.success_creation_count = res0.success_creation_count + 1 +
              (rest.filter (completesOnCrossVolume w)).length := e3
          refine ⟨e1x, e2x, ?_, ?_⟩
          · rw [List.filter_cons, if_pos hcomp, List.length_cons]
            omega
          · intro t2 ht2
            rcases List.mem_cons.mp ht2 with h9 | h9
            · rw [h9]
              exact htrig
            · exact e4 t2 h9
        · right
          have e7x : res.success_creation_count = res0.success_creation_count + 1 +
              (pre.filter (completesOnCrossVolume w)).length := h7
          refine ⟨e1, e2, t :: pre, t3, post, by rw [hsplit, List.cons_append], h5, ?_, ?_⟩
          · intro t2 ht2
            rcases List.mem_cons.mp ht2 with h9 | h9
            · rw [h9]
              exact htrig
            · exact h6 t2 h9
          · rw [List.filter_cons, if_pos hcomp, List.length_cons]
            omega
      | false =>
        simp only [createLoop, processTarget_cv_abort w t hvol hsrc hdst,
          Option.some.injEq, Prod.mk.injEq] at h
        have htrig : triggersAbort w t = true := by
          simp [triggersAbort, hsrc, hdst]
        refine ⟨h.1.symm, Or.inr ?_⟩
        rw [← h.2]
        refine ⟨rfl, rfl, [], t, rest, rfl, htrig, ?_, ?_⟩
        · intro t2 ht2
          exact absurd ht2 (List.not_mem_nil t2)
        · simp

/-- Claim C9: a normally-returning `create_hardlink` call hands back a
`Result` whose `error_message` is non-empty exactly when `has_error` is
set, and whose `success_creation_count` never exceeds the number of
targets (each loop iteration increments it at most once, and as a natural
number it is trivially non-negative). -/
theorem result_wellformed (srtb_list : List (String × String × String)) (w : World)
    (w2 : World) (res : Result)
    (hrun : create_hardlink srtb_list w = some (w2, res)) :
    (res.error_message ≠ "" ↔ res.has_error = true) ∧
    res.success_creation_count ≤ srtb_list.length := by
  unfold create_hardlink at hrun
  constructor
  · rcases createLoop_error_fields srtb_list _ _ _ _ hrun rfl rfl with ⟨h1, h2⟩ | ⟨h1, h2⟩
    · exact iff_of_true (by rw [h2]; decide) h1
    · constructor
      · intro hne
        exact absurd h2 hne
      · intro htrue
        rw [h1] at htrue
        cases htrue
  · have hle := createLoop_count_le srtb_list _ _ _ _ hrun
    simpa using hle

def wSame : World :=
  { sameVolume := true, sourceCharts := ["A"], sourceArts := [], sourceClips := [],
    mirrorCharts := [], mirrorArts := [], mirrorClips := [] }

def wSameAfter : World := { wSame with mirrorCharts := ["A"] }

def resSame : Result :=
  { has_error := false, error_message := "", success_creation_count := 1 }

/-- Witness for C9 on a one-target same-volume run. -/
theorem result_wellformed_witness :
    ((resSame.error_message ≠ "" ↔ resSame.has_error = true) ∧
      resSame.success_creation_count ≤ [("A", "art", "clip")].length) :=
  result_wellformed [("A", "art", "clip")] wSame wSameAfter resSame (by rfl)

/-- Claim C3: on a normally-returning run, `error_message` is set exactly
when `has_error` is, and a raised error means the cross-volume break: the
message is the fixed volume message, the run was cross-volume, the
returned world is exactly the pruned initial world (no link was created,
no target after the break was processed), the target list splits around a
first abort trigger, and the counter holds precisely the targets completed
before it (all of them idempotent already-linked completions). -/
theorem cross_volume_abort (srtb_list : List (String × String × String)) (w : World)
    (w2 : World) (res : Result)
    (hrun : create_hardlink srtb_list w = some (w2, res)) :
    (res.has_error = true ↔ res.error_message ≠ "") ∧
    (res.has_error = true →
      res.error_message = volumeErrorMessage ∧ w.sameVolume = false ∧
      w2 = delete_untargeted_hardlinks srtb_list w ∧
      ∃ pre t post, srtb_list = pre ++ t :: post ∧
        triggersAbort w2 t = true ∧ (∀ t2 ∈ pre, triggersAbort w2 t2 = false) ∧
        res.success_creation_count = (pre.filter (completesOnCrossVolume w2)).length) := by
  unfold create_hardlink at hrun
  constructor
  · rcases createLoop_error_fields srtb_list _ _ _ _ hrun rfl rfl with ⟨h1, h2⟩ | ⟨h1, h2⟩
    · exact iff_of_true h1 (by rw [h2]; decide)
    · exact iff_of_false (by simp [h1]) (by simp [h2])
  · intro htrue
    rcases Bool.dichotomy w.sameVolume with hvol | hvol
    · have hpv : (delete_untargeted_hardlinks srtb_list w).sameVolume = false := by
        rw [prune_sameVolume, hvol]
      rcases createLoop_crossVolume srtb_list _ _ _ _ hpv hrun with ⟨hw2, hcase⟩
      rcases hcase with ⟨e1, _, _, _⟩ | ⟨e1, e2, pre, t, post, hsplit, h5, h6, h7⟩
      · exfalso
        have hfalse : res.has_error = false := by simpa using e1
        rw [htrue] at hfalse
        cases hfalse
      · refine ⟨e2, hvol, hw2, pre, t, post, hsplit, ?_, ?_, ?_⟩
        · rw [hw2]
          exact h5
        · intro t2 ht2
          rw [hw2]
          exact h6 t2 ht2
        · rw [hw2]
          simpa using h7
    · exfalso
      have hpv : (delete_untargeted_hardlinks srtb_list w).sameVolume = true := by
        rw [prune_sameVolume, hvol]
      have hkeep := (createLoop_sameVolume_error srtb_list _ _ _ _ hpv hrun).1
      have hfalse : res.has_error = false := by simpa using hkeep
      rw [htrue] at hfalse
      cases hfalse

def wCross : World :=
  { sameVolume := false, sourceCharts := ["A"], sourceArts := [], sourceClips := [],
    mirrorCharts := [], mirrorArts := [], mirrorClips := [] }

def resCross : Result :=
  { has_error := true, error_message := volumeErrorMessage, success_creation_count := 0 }

/-- Witness for C3 on a concrete cross-volume run. -/
theorem cross_volume_abort_witness :
    (resCross.has_error = true ↔ resCross.error_message ≠ "") :=
  (cross_volume_abort [("A", "art", "clip")] wCross wCross resCross (by rfl)).1

def wAlready : World :=
  { sameVolume := true, sourceCharts := ["B"], sourceArts := [⟨"artB", "png"⟩],
    sourceClips := [⟨"clipB", "ogg"⟩], mirrorCharts := ["B"], mirrorArts := [],
    mirrorClips := [] }

/-- Claim C2, counterexample: a run whose single target's chart link
already exists in the mirror. Both of the target's assets resolve in the
source folders and are absent from the mirror, so a run that (as the claim
states) proceeded to link the assets would have added the clip link (the
clip phase is not best-effort). The actual run returns with the target
counted as a success while the mirror album-art and clip folders are still
empty: the winerror 183 branch executes `continue`, skipping the assets. -/
theorem already_exists_skips_assets_counterexample :
    create_hardlink [("B", "artB", "clipB")] wAlready =
      some (wAlready,
        { has_error := false, error_message := "", success_creation_count := 1 }) ∧
    findAsset "artB" wAlready.sourceArts = some ⟨"artB", "png"⟩ ∧
    findAsset "clipB" wAlready.sourceClips = some ⟨"clipB", "ogg"⟩ ∧
    wAlready.mirrorArts = [] ∧ wAlready.mirrorClips = [] :=
  ⟨by rfl, by rfl, by rfl, rfl, rfl⟩

/-- Claim C2, amended: when the chart hard-link creation fails because the
link already exists, the target is treated as an idempotent success and
counted, but the loop moves directly to the next target: the target's
album-art and clip assets are not resolved or linked (the filesystem state
is returned unchanged by the step). -/
theorem already_exists_counts_and_skips_assets (w : World) (t : String × String × String)
    (hsrc : chartSrcPresent w t = true) (hdst : chartDstPresent w t = true) :
    processTarget w t = .success w ∧
    ∀ rest res, createLoop w (t :: rest) res =
      createLoop w rest { res with
        success_creation_count := res.success_creation_count + 1 } := by
  have hp := processTarget_already w t hsrc hdst
  refine ⟨hp, fun rest res => ?_⟩
  simp only [createLoop, hp]

/-- Witness for the amended C2 at the concrete already-linked world. -/
theorem already_exists_counts_and_skips_assets_witness :
    processTarget wAlready ("B", "artB", "clipB") = StepOut.success wAlready :=
  (already_exists_counts_and_skips_assets wAlready ("B", "artB", "clipB")
    (by rfl) (by rfl)).1

/-- A string differing from both elements is not contained in the pair. -/
theorem contains_pair_eq_false (x a b : String) (h1 : x ≠ a) (h2 : x ≠ b) :
    (([a, b] : List String).contains x) = false := by
  rw [List.contains_cons, List.contains_cons]
  simp [beq_eq_false_iff_ne.mpr h1, beq_eq_false_iff_ne.mpr h2, List.contains]

/-- Claim C1: a run over targets B and D against a mirror holding chart
links A, B, C (A, C not targeted; sources for B and D present; both roots
on one volume) that returns normally first prunes the mirror chart links
down to exactly B, then leaves B's link in place (winerror 183, counted)
and creates D's link, ending with the mirror holding exactly the chart
links B and D and both targets counted. -/
theorem reconciliation_convergence (A B C D artB clipB artD clipD : String) (w : World)
    (hAB : A ≠ B) (hAD : A ≠ D) (hCB : C ≠ B) (hCD : C ≠ D) (hDB : D ≠ B)
    (hvol : w.sameVolume = true) (hmirror : w.mirrorCharts = [A, B, C])
    (hsrcB : B ∈ w.sourceCharts) (hsrcD : D ∈ w.sourceCharts)
    (w2 : World) (res : Result)
    (hrun : create_hardlink [(B, artB, clipB), (D, artD, clipD)] w = some (w2, res)) :
    (delete_untargeted_hardlinks [(B, artB, clipB), (D, artD, clipD)] w).mirrorCharts
      = [B] ∧
    w2.mirrorCharts = [B, D] ∧ res.success_creation_count = 2 ∧
    res.has_error = false := by
  have hprune : (delete_untargeted_hardlinks [(B, artB, clipB), (D, artD, clipD)] w).mirrorCharts
      = [B] := by
    show w.mirrorCharts.filter
      (fun s => ([(B, artB, clipB), (D, artD, clipD)].map (fun t => t.1)).contains s) = [B]
    rw [hmirror]
    have hA : (([B, D] : List String).contains A) = false := contains_pair_eq_false A B D hAB hAD
    have hC : (([B, D] : List String).contains C) = false := contains_pair_eq_false C B D hCB hCD
    have hB : (([B, D] : List String).contains B) = true := by
      rw [List.contains_cons]
      simp
    simp only [List.map_cons, List.map_nil, List.filter_cons, List.filter_nil, hA, hB, hC]
    rfl
  refine ⟨hprune, ?_⟩
  unfold create_hardlink at hrun
  set w0 := delete_untargeted_hardlinks [(B, artB, clipB), (D, artD, clipD)] w with hw0
  have hvol0 : w0.sameVolume = true := by
    rw [hw0, prune_sameVolume, hvol]
  have hsrcB0 : chartSrcPresent w0 (B, artB, clipB) = true := by
    show w0.sourceCharts.contains B = true
    rw [hw0, prune_sourceCharts]
    exact List.elem_iff.mpr hsrcB
  have hdstB0 : chartDstPresent w0 (B, artB, clipB) = true := by
    show w0.mirrorCharts.contains B = true
    rw [hprune, List.contains_cons]
    simp
  have hsrcD0 : chartSrcPresent w0 (D, artD, clipD) = true := by
    show w0.sourceCharts.contains D = true
    rw [hw0, prune_sourceCharts]
    exact List.elem_iff.mpr hsrcD
  have hdstD0 : chartDstPresent w0 (D, artD, clipD) = false := by
    show w0.mirrorCharts.contains D = false
    rw [hprune, List.contains_cons]
    simp [beq_eq_false_iff_ne.mpr hDB, List.contains]
  simp only [createLoop, processTarget_already w0 (B, artB, clipB) hsrcB0 hdstB0] at hrun
  simp only [createLoop, processTarget_create w0 (D, artD, clipD) hvol0 hsrcD0 hdstD0] at hrun
  rcases hclip : linkClip (D, artD, clipD).2.2
      (linkAlbumArt (D, artD, clipD).2.1
        { w0 with mirrorCharts := w0.mirrorCharts ++ [(D, artD, clipD).1] }) with _ | w3
  · rw [hclip] at hrun
    cases hrun
  · rw [hclip] at hrun
    simp only [createLoop, Option.some.injEq, Prod.mk.injEq] at hrun
    have hmc : w2.mirrorCharts = [B, D] := by
      rw [← hrun.1, (linkClip_some _ _ _ hclip).2, linkAlbumArt_mirrorCharts]
      show w0.mirrorCharts ++ [D] = [B, D]
      rw [hprune]
      rfl
    refine ⟨hmc, ?_, ?_⟩
    · rw [← hrun.2]
    · rw [← hrun.2]

def wConv : World :=
  { sameVolume := true, sourceCharts := ["B", "D"], sourceArts := [], sourceClips := [],
    mirrorCharts := ["A", "B", "C"], mirrorArts := [], mirrorClips := [] }

def wConvAfter : World := { wConv with mirrorCharts := ["B", "D"] }

def resConv : Result :=
  { has_error := false, error_message := "", success_creation_count := 2 }

/-- Witness for C1 on a concrete mirror {A, B, C} and target set {B, D}. -/
theorem reconciliation_convergence_witness :
    (delete_untargeted_hardlinks [("B", "artB", "clipB"), ("D", "artD", "clipD")]
      wConv).mirrorCharts = ["B"] ∧
    wConvAfter.mirrorCharts = ["B", "D"] ∧ resConv.success_creation_count = 2 ∧
    resConv.has_error = false :=
  reconciliation_convergence "A" "B" "C" "D" "artB" "clipB" "artD" "clipD" wConv
    (by decide) (by decide) (by decide) (by decide) (by decide) rfl rfl
    (by decide) (by decide) wConvAfter resConv (by rfl)

/-- Looking up a freshly upserted key yields the new modification time. -/
theorem lookup_upsert_same (db : Db) (row : DbRow) :
    lookupModifiedAt (upsertRow db row) row.file_reference = some row.file_modified_at := by
  unfold lookupModifiedAt upsertRow
  rw [List.find?_append]
  have h1 : (db.filter (fun r => !(r.file_reference == row.file_reference))).find?
      (fun r => r.file_reference == row.file_reference) = none := by
    rw [List.find?_eq_none]
    intro x hx
    have hq := (List.mem_filter.mp hx).2
    simp only [Bool.not_eq_true'] at hq
    simp [hq]
  rw [h1]
  simp [List.find?]

/-- Upserting one key leaves lookups of every other key unchanged. -/
theorem find?_filter_of_imp {α : Type} (l : List α) (p q : α → Bool)
    (h : ∀ x, q x = false → p x = false) : (l.filter q).find? p = l.find? p := by
  induction l with
  | nil => rfl
  | cons a t ih =>
    rw [List.filter_cons]
    cases hq : q a with
    | false =>
      have hp : p a = false := h a hq
      rw [if_neg (by simp [hq]), ih]
      exact (List.find?_cons_of_neg _ (by simp [hp])).symm
    | true =>
      rw [if_pos rfl]
      cases hp : p a with
      | true =>
        rw [List.find?_cons_of_pos _ hp, List.find?_cons_of_pos _ hp]
      | false =>
        rw [List.find?_cons_of_neg _ (by simp [hp]),
          List.find?_cons_of_neg _ (by simp [hp]), ih]

theorem lookup_upsert_other (db : Db) (row : DbRow) (ref : String)
    (h : ref ≠ row.file_reference) :
    lookupModifiedAt (upsertRow db row) ref = lookupModifiedAt db ref := by
  unfold lookupModifiedAt upsertRow
  rw [List.find?_append]
  have h2 : (([row] : List DbRow).find? (fun r => r.file_reference == ref)) = none := by
    rw [List.find?_eq_none]
    intro x hx
    rcases List.mem_singleton.mp hx with rfl
    simp [beq_eq_false_iff_ne.mpr (Ne.symm h)]
  have himp : ∀ x : DbRow, (!(x.file_reference == row.file_reference)) = false →
      (x.file_reference == ref) = false := by
    intro x hqx
    have hx : x.file_reference = row.file_reference := by simpa using hqx
    rw [hx]
    exact beq_eq_false_iff_ne.mpr (Ne.symm h)
  rw [h2, find?_filter_of_imp db _ _ himp]
  simp

/-- Unfolding the indexing loop: skip of an unchanged file. -/
theorem loadStep_cons_skip (total : Nat) (f : SrtbFile) (rest : List SrtbFile)
    (idx : Nat) (db : Db) (h : lookupModifiedAt db f.stem = some f.mtime) :
    loadStep total (f :: rest) idx db = loadStep total rest (idx + 1) db := by
  simp [loadStep, h]

/-- Unfolding the indexing loop: skip of a file whose parse fails. -/
theorem loadStep_cons_fail (total : Nat) (f : SrtbFile) (rest : List SrtbFile)
    (idx : Nat) (db : Db) (h : ¬ lookupModifiedAt db f.stem = some f.mtime)
    (hp : f.parsed = none) :
    loadStep total (f :: rest) idx db = loadStep total rest (idx + 1) db := by
  simp [loadStep, h, hp]

/-- Unfolding the indexing loop: a changed (or new) file that parses is
upserted, the callback fires, and the upsert counter moves. -/
theorem loadStep_cons_upsert (total : Nat) (f : SrtbFile) (rest : List SrtbFile)
    (idx : Nat) (db : Db) (ch : SrtbChart)
    (h : ¬ lookupModifiedAt db f.stem = some f.mtime) (hp : f.parsed = some ch) :
    loadStep total (f :: rest) idx db =
      ((loadStep total rest (idx + 1) (upsertRow db ⟨ch.file_reference, f.mtime, ch⟩)).1,
       (ch, idx, total) ::
         (loadStep total rest (idx + 1) (upsertRow db ⟨ch.file_reference, f.mtime, ch⟩)).2.1,
       (loadStep total rest (idx + 1) (upsertRow db ⟨ch.file_reference, f.mtime, ch⟩)).2.2
         + 1) := by
  simp [loadStep, h, hp]

/-- A pass over files none of whose parsed charts carry a given reference
leaves lookups of that reference unchanged. -/
theorem loadStep_lookup_preserved (total : Nat) (files : List SrtbFile) :
    ∀ idx db ref, (∀ f ∈ files, ∀ ch, f.parsed = some ch → ch.file_reference ≠ ref) →
      lookupModifiedAt (loadStep total files idx db).1 ref = lookupModifiedAt db ref := by
  induction files with
  | nil =>
    intro idx db ref _
    rfl
  | cons g rest ih =>
    intro idx db ref h
    have hrest : ∀ f ∈ rest, ∀ ch, f.parsed = some ch → ch.file_reference ≠ ref :=
      fun f hf => h f (List.mem_cons_of_mem g hf)
    by_cases hskip : lookupModifiedAt db g.stem = some g.mtime
    · rw [loadStep_cons_skip total g rest idx db hskip]
      exact ih (idx + 1) db ref hrest
    · cases hp : g.parsed with
      | none =>
        rw [loadStep_cons_fail total g rest idx db hskip hp]
        exact ih (idx + 1) db ref hrest
      | some ch =>
        rw [loadStep_cons_upsert total g rest idx db ch hskip hp]
        show lookupModifiedAt (loadStep total rest (idx + 1)
            (upsertRow db ⟨ch.file_reference, g.mtime, ch⟩)).1 ref = lookupModifiedAt db ref
        rw [ih (idx + 1) _ ref hrest]
        exact lookup_upsert_other db ⟨ch.file_reference, g.mtime, ch⟩ ref
          (Ne.symm (h g (List.mem_cons_self g rest) ch hp))

/-- After one completed pass, every file either failed to parse or has its
current modification time stored under its stem. -/
theorem loadStep_post (total : Nat) (files : List SrtbFile) :
    ∀ idx db, (files.map (fun f => f.stem)).Nodup →
      (∀ f ∈ files, ∀ ch, f.parsed = some ch → ch.file_reference = f.stem) →
      ∀ f ∈ files, f.parsed = none ∨
        lookupModifiedAt (loadStep total files idx db).1 f.stem = some f.mtime := by
  induction files with
  | nil =>
    intro idx db _ _ f hf
    exact absurd hf (List.not_mem_nil f)
  | cons g rest ih =>
    intro idx db hnodup href f hf
    rw [List.map_cons] at hnodup
    have hnodup2 : (rest.map (fun f => f.stem)).Nodup := (List.nodup_cons.mp hnodup).2
    have hgnotin : g.stem ∉ rest.map (fun f => f.stem) := (List.nodup_cons.mp hnodup).1
    have href2 : ∀ f2 ∈ rest, ∀ ch, f2.parsed = some ch → ch.file_reference = f2.stem :=
      fun f2 h2 => href f2 (List.mem_cons_of_mem g h2)
    have hkeys : ∀ f2 ∈ rest, ∀ ch, f2.parsed = some ch → ch.file_reference ≠ g.stem := by
      intro f2 h2 ch hch
      rw [href2 f2 h2 ch hch]
      intro he
      exact hgnotin (by rw [← he]; exact List.mem_map_of_mem _ h2)
    by_cases hskip : lookupModifiedAt db g.stem = some g.mtime
    · rw [loadStep_cons_skip total g rest idx db hskip]
      rcases List.mem_cons.mp hf with rfl | hf2
      · right
        rw [loadStep_lookup_preserved total rest (idx + 1) db f.stem hkeys]
        exact hskip
      · exact ih (idx + 1) db hnodup2 href2 f hf2
    · cases hp : g.parsed with
      | none =>
        rw [loadStep_cons_fail total g rest idx db hskip hp]
        rcases List.mem_cons.mp hf with rfl | hf2
        · left
          exact hp
        · exact ih (idx + 1) db hnodup2 href2 f hf2
      | some ch =>
        have hrefg : ch.file_reference = g.stem := href g (List.mem_cons_self g rest) ch hp
        rw [loadStep_cons_upsert total g rest idx db ch hskip hp]
        rcases List.mem_cons.mp hf with rfl | hf2
        · right
          show lookupModifiedAt (loadStep total rest (idx + 1)
              (upsertRow db ⟨ch.file_reference, f.mtime, ch⟩)).1 f.stem = some f.mtime
          rw [loadStep_lookup_preserved total rest (idx + 1) _ f.stem hkeys, hrefg]
          exact lookup_upsert_same db ⟨f.stem, f.mtime, ch⟩
        · exact ih (idx + 1) _ hnodup2 href2 f hf2

/-- A pass over files that are all current (or unparsable) does nothing:
the table, the callback log and the upsert count stay untouched. -/
theorem loadStep_all_current (total : Nat) (files : List SrtbFile) :
    ∀ idx db, (∀ f ∈ files, lookupModifiedAt db f.stem = some f.mtime ∨ f.parsed = none) →
      loadStep total files idx db = (db, [], 0) := by
  induction files with
  | nil =>
    intro idx db _
    rfl
  | cons g rest ih =>
    intro idx db h
    have hrest : ∀ f ∈ rest, lookupModifiedAt db f.stem = some f.mtime ∨ f.parsed = none :=
      fun f hf => h f (List.mem_cons_of_mem g hf)
    rcases h g (List.mem_cons_self g rest) with hcur | hp
    · rw [loadStep_cons_skip total g rest idx db hcur]
      exact ih (idx + 1) db hrest
    · by_cases hskip : lookupModifiedAt db g.stem = some g.mtime
      · rw [loadStep_cons_skip total g rest idx db hskip]
        exact ih (idx + 1) db hrest
      · rw [loadStep_cons_fail total g rest idx db hskip hp]
        exact ih (idx + 1) db hrest

/-- Claim C4: when the directory's files are unchanged after a completed
pass, a second `load_srtb_files_to_sqlite` pass performs zero upserts,
never fires the progress callback, and leaves the table untouched: every
successfully indexed file is skipped because its stored `file_modified_at`
equals the on-disk time, and a file whose parse failed is skipped again by
the same failure. Hypotheses: the enumerated files of one directory have
distinct stems, and the parser derives `file_reference` from the file's
base name (its stem), as the collaborator contract states. -/
theorem indexing_idempotent (files : List SrtbFile) (db0 : Db)
    (hnodup : (files.map (fun f => f.stem)).Nodup)
    (href : ∀ f ∈ files, ∀ ch, f.parsed = some ch → ch.file_reference = f.stem) :
    load_srtb_files_to_sqlite files (load_srtb_files_to_sqlite files db0).1 =
      ((load_srtb_files_to_sqlite files db0).1, [], 0) := by
  unfold load_srtb_files_to_sqlite
  apply loadStep_all_current
  intro f hf
  rcases loadStep_post files.length files 0 db0 hnodup href f hf with hp | hcur
  · exact Or.inr hp
  · exact Or.inl hcur

def chartA : SrtbChart :=
  { file_reference := "a", track_title := "T", track_subtitle := none,
    track_artist := "Ar", charter := "Ch", easy_difficulty := none,
    normal_difficulty := none, hard_difficulty := some 7, expert_difficulty := none,
    xd_difficulty := none, albumart_asset_name := "art", clip_asset_name := "clip",
    self_path := "p", clip_duration := some 42 }

def fileA : SrtbFile := { stem := "a", mtime := 10, parsed := some chartA }

/-- Witness for C4 on a one-file directory over an empty table. -/
theorem indexing_idempotent_witness :
    load_srtb_files_to_sqlite [fileA] (load_srtb_files_to_sqlite [fileA] []).1 =
      ((load_srtb_files_to_sqlite [fileA] []).1, [], 0) :=
  indexing_idempotent [fileA] [] (by simp)
    (by
      intro f hf ch hch
      rcases List.mem_singleton.mp hf with rfl
      rw [show fileA.parsed = some chartA from rfl] at hch
      cases hch
      rfl)
